import Mathlib

/-!
Verification of the Ribbon Slider component of `src/demo1/scripts.js`
(vaps-demos), against its natural-language specification.

Shallow embedding conventions:
* JavaScript numbers taking part in the slider's index arithmetic are
  modelled by `JsNum`: an integer or NaN (NaN is produced by `x % 0` and
  propagates; every comparison against NaN is false, as in JavaScript).
* A DOM element's slider-managed class list is modelled by explicit
  boolean fields (`SlideClasses` for `.ribbon-item`s; a `Bool` per
  `.nav-dot` for its `active` class).
* The browser's interval table is part of the state: `pendingIntervals`
  is the list of live interval ids, `nextTimerId` the next fresh id that
  `setInterval` would return.  Each live interval stands for a recurring
  scheduled `nextSlide` advance.
* A thrown `TypeError` (the null `progressBar` dereference) is an
  `Except.error` carrying the state at the moment of the throw.
-/

/-- A JavaScript number as used by the slider's index arithmetic:
an integer or NaN. -/
inductive JsNum where
  | num (n : Int)
  | nan
deriving DecidableEq

/-- JavaScript `+` on slider index values (NaN propagates). -/
def jsAdd : JsNum → JsNum → JsNum
  | .num a, .num b => .num (a + b)
  | _, _ => .nan

/-- JavaScript `-` on slider index values (NaN propagates). -/
def jsSub : JsNum → JsNum → JsNum
  | .num a, .num b => .num (a - b)
  | _, _ => .nan

/-- JavaScript `%`: truncated remainder; `x % 0` is NaN, NaN propagates. -/
def jsMod : JsNum → JsNum → JsNum
  | .num a, .num b => if b = 0 then .nan else .num (a.tmod b)
  | _, _ => .nan

/-- JavaScript `===` on numbers (`NaN === x` is false for every `x`). -/
def jsEq : JsNum → JsNum → Bool
  | .num a, .num b => a == b
  | _, _ => false

/-- JavaScript `<` on numbers (false whenever an operand is NaN). -/
def jsLt : JsNum → JsNum → Bool
  | .num a, .num b => decide (a < b)
  | _, _ => false

namespace CONFIG

/-- The `CONFIG.SLIDER_INTERVAL` constant of `scripts.js`. -/
def SLIDER_INTERVAL : Nat := 5000

/-- The `CONFIG.SWIPE_THRESHOLD` constant of `scripts.js`. -/
def SWIPE_THRESHOLD : Nat := 50

end CONFIG

/-- The three slider-managed classes on one `.ribbon-item` element. -/
structure SlideClasses where
  active : Bool
  prev : Bool
  next : Bool
deriving DecidableEq

/-- Models `list.forEach((x, index) => ...)` rebuilding each element from its
index: `forEachIdx f k l` applies `f` to indices counted from `k`
(the slider always starts at `k = 0`). -/
def forEachIdx (f : Nat → α → β) : Nat → List α → List β
  | _, [] => []
  | k, a :: as => f k a :: forEachIdx f (k + 1) as

/-- State of a `RibbonSlider` instance together with the host-browser
resources it owns (interval table, progress-fill element). -/
@[ext]
structure RibbonSlider where
  currentSlide : JsNum
  slides : List SlideClasses
  dots : List Bool
  totalSlides : Nat
  autoPlayInterval : Option Nat
  /-- the `.progress-fill` element if present, holding its current
  `style.animation` string -/
  progressBar : Option String
  touchStartX : Int
  touchEndX : Int
  /-- host: ids of live intervals (each one a recurring scheduled advance) -/
  pendingIntervals : List Nat
  /-- host: next id `setInterval` hands out -/
  nextTimerId : Nat
deriving DecidableEq

namespace RibbonSlider

/-- Models `goToSlide(slideIndex)`: every slide's classes are removed and exactly
one of `active`/`prev`/`next` re-added by comparing the slide's index to
`slideIndex`; every dot's `active` class is toggled to
`index === slideIndex`; finally `currentSlide = slideIndex`. -/
def goToSlide (s : RibbonSlider) (slideIndex : JsNum) : RibbonSlider :=
  { s with
    slides := forEachIdx (fun index _ =>
        if jsEq (.num index) slideIndex then ⟨true, false, false⟩
        else if jsLt (.num index) slideIndex then ⟨false, true, false⟩
        else ⟨false, false, true⟩) 0 s.slides,
    dots := forEachIdx (fun index _ => jsEq (.num index) slideIndex) 0 s.dots,
    currentSlide := slideIndex }

/-- Models `nextSlide()`: `goToSlide((currentSlide + 1) % totalSlides)`. -/
def nextSlide (s : RibbonSlider) : RibbonSlider :=
  s.goToSlide (jsMod (jsAdd s.currentSlide (.num 1)) (.num s.totalSlides))

/-- Models `prevSlide()`: `goToSlide((currentSlide - 1 + totalSlides) % totalSlides)`. -/
def prevSlide (s : RibbonSlider) : RibbonSlider :=
  s.goToSlide
    (jsMod (jsAdd (jsSub s.currentSlide (.num 1)) (.num s.totalSlides))
      (.num s.totalSlides))

/-- Models `startAutoPlay()`: `setInterval` registers a fresh recurring schedule
with the host and its id is stored in `autoPlayInterval` unconditionally —
no check that a schedule is already running. -/
def startAutoPlay (s : RibbonSlider) : RibbonSlider :=
  { s with
    autoPlayInterval := some s.nextTimerId,
    pendingIntervals := s.pendingIntervals ++ [s.nextTimerId],
    nextTimerId := s.nextTimerId + 1 }

/-- Models `stopAutoPlay()`: `if (this.autoPlayInterval) clearInterval(...)`;
the stored handle itself is not cleared. -/
def stopAutoPlay (s : RibbonSlider) : RibbonSlider :=
  match s.autoPlayInterval with
  | some id => { s with pendingIntervals := s.pendingIntervals.erase id }
  | none => s

/-- Models `restartProgressBar()`: `this.progressBar.style.animation = 'none'`
throws a TypeError when `progressBar` is null; the 10 ms timeout that
later re-arms the `progressFill` animation is beyond the modelled step. -/
def restartProgressBar (s : RibbonSlider) : Except RibbonSlider RibbonSlider :=
  match s.progressBar with
  | none => .error s
  | some _ => .ok { s with progressBar := some "none" }

/-- Models `restartAutoPlay()`: stop, start, then restart the progress bar. -/
def restartAutoPlay (s : RibbonSlider) : Except RibbonSlider RibbonSlider :=
  restartProgressBar (startAutoPlay (stopAutoPlay s))

/-- The dot-click listener installed by `bindEvents` for dot `index`. -/
def dotClick (s : RibbonSlider) (index : Nat) : Except RibbonSlider RibbonSlider :=
  restartAutoPlay (s.goToSlide (.num index))

/-- Models `handleKeydown(e)` for a key identifier. -/
def handleKeydown (s : RibbonSlider) (key : String) : Except RibbonSlider RibbonSlider :=
  if key = "ArrowLeft" then restartAutoPlay s.prevSlide
  else if key = "ArrowRight" then restartAutoPlay s.nextSlide
  else .ok s

/-- Models `handleTouchStart(e)`: record the touch's clientX. -/
def handleTouchStart (s : RibbonSlider) (clientX : Int) : RibbonSlider :=
  { s with touchStartX := clientX }

/-- Models `handleSwipe()`: fire `nextSlide`/`prevSlide` and restart autoplay
when `|touchStartX - touchEndX|` exceeds the threshold. -/
def handleSwipe (s : RibbonSlider) : Except RibbonSlider RibbonSlider :=
  let diff := s.touchStartX - s.touchEndX
  if CONFIG.SWIPE_THRESHOLD < diff.natAbs then
    if 0 < diff then restartAutoPlay s.nextSlide
    else restartAutoPlay s.prevSlide
  else .ok s

/-- Models `handleTouchEnd(e)`: record the end clientX, then `handleSwipe()`. -/
def handleTouchEnd (s : RibbonSlider) (clientX : Int) : Except RibbonSlider RibbonSlider :=
  handleSwipe { s with touchEndX := clientX }

/-- The `RibbonSlider` constructor followed by `init()`: fields are
initialized from the DOM (`slides`, `dots`, `progressBar`), `currentSlide`
and the touch coordinates start at `0`, `totalSlides = slides.length`,
`autoPlayInterval = null`; then `init()` runs `bindEvents()` (pure event
wiring) and `startAutoPlay()`.  The page starts with an empty interval
table and ids handed out from 1. -/
def construct (slides : List SlideClasses) (dots : List Bool)
    (progressBar : Option String) : RibbonSlider :=
  startAutoPlay
    { currentSlide := .num 0
      slides := slides
      dots := dots
      totalSlides := slides.length
      autoPlayInterval := none
      progressBar := progressBar
      touchStartX := 0
      touchEndX := 0
      pendingIntervals := []
      nextTimerId := 1 }

end RibbonSlider

/-- The `visibilitychange` listener installed by
`VisibilityController.initVisibilityHandler`:
`document.hidden ? slider.stopAutoPlay() : slider.startAutoPlay()`. -/
def onVisibilityChange (s : RibbonSlider) (hidden : Bool) : RibbonSlider :=
  if hidden then s.stopAutoPlay else s.startAutoPlay

/-- The state a handler leaves behind, whether it returned normally or
threw (the error value carries the state at the throw). -/
def exceptState : Except RibbonSlider RibbonSlider → RibbonSlider
  | .ok s => s
  | .error s => s

/-- Slide-deck commands reachable from the UI with an in-range dot set:
a dot click (`goToSlide i`), right arrow (`nextSlide`), left arrow
(`prevSlide`). -/
inductive DeckOp where
  | goTo (i : Nat)
  | next
  | prev
deriving DecidableEq

/-- Apply one deck command (the deck part only; timer effects are handled
separately by the timer model). -/
def applyDeckOp (s : RibbonSlider) : DeckOp → RibbonSlider
  | .goTo i => s.goToSlide (.num i)
  | .next => s.nextSlide
  | .prev => s.prevSlide

/-- Run a sequence of deck commands. -/
def runDeck (s : RibbonSlider) (ops : List DeckOp) : RibbonSlider :=
  ops.foldl applyDeckOp s

/-- A deck command is valid for a deck of `N` slides (with one dot per
slide, a dot click carries an index `< N`). -/
def DeckOp.valid (N : Nat) : DeckOp → Prop
  | .goTo i => i < N
  | .next => True
  | .prev => True

instance (N : Nat) (op : DeckOp) : Decidable (op.valid N) :=
  match op with
  | .goTo i => inferInstanceAs (Decidable (i < N))
  | .next => inferInstanceAs (Decidable True)
  | .prev => inferInstanceAs (Decidable True)

/-- Timer commands for the exclusivity analysis: `stopAutoPlay` and
`restartAutoPlay` (for `restartAutoPlay` the timer mutations all happen
before the possible progress-bar throw, so the post-state is taken from
either outcome). -/
inductive TimerOp where
  | stop
  | restart
deriving DecidableEq

/-- Apply one timer command. -/
def applyTimerOp (s : RibbonSlider) : TimerOp → RibbonSlider
  | .stop => s.stopAutoPlay
  | .restart => exceptState s.restartAutoPlay

/-- Run a sequence of timer commands. -/
def runTimer (s : RibbonSlider) (ops : List TimerOp) : RibbonSlider :=
  ops.foldl applyTimerOp s

/-- The presentation invariant of the spec: `currentSlide` holds an
in-range index `c`, exactly one slide (the one at `c`) carries `active`,
slides below `c` carry `prev`, slides above carry `next`, and exactly the
dot at `c` is selected. -/
def SliderInv (s : RibbonSlider) : Prop :=
  ∃ c : Nat, s.currentSlide = .num c ∧ c < s.slides.length ∧
    s.slides.countP (fun sc => sc.active) = 1 ∧
    (∀ i (h : i < s.slides.length), s.slides.get ⟨i, h⟩ =
      if i = c then ⟨true, false, false⟩
      else if i < c then ⟨false, true, false⟩
      else ⟨false, false, true⟩) ∧
    (∀ i (h : i < s.dots.length), s.dots.get ⟨i, h⟩ = decide (i = c))

/-- Asserts that `currentSlide` holds an in-range index. -/
def CurrentOK (s : RibbonSlider) : Prop :=
  ∃ c : Nat, s.currentSlide = .num c ∧ c < s.slides.length

/-- Timer exclusivity: the live intervals are at most the one stored in
the handle. -/
def TimerInv (s : RibbonSlider) : Prop :=
  s.pendingIntervals = [] ∨
    ∃ id, s.autoPlayInterval = some id ∧ s.pendingIntervals = [id]

/-! ### Basic facts about the embedding -/

@[simp]
lemma forEachIdx_length (f : Nat → α → β) (k : Nat) (l : List α) :
    (forEachIdx f k l).length = l.length := by
  induction l generalizing k with
  | nil => rfl
  | cons a as ih => simp [forEachIdx, ih]

lemma forEachIdx_get (f : Nat → α → β) (l : List α) :
    ∀ (k i : Nat) (h : i < l.length) (h' : i < (forEachIdx f k l).length),
      (forEachIdx f k l).get ⟨i, h'⟩ = f (k + i) (l.get ⟨i, h⟩) := by
  induction l with
  | nil => intro k i h h'; exact absurd h (Nat.not_lt_zero i)
  | cons a as ih =>
    intro k i h h'
    cases i with
    | zero => rfl
    | succ n =>
      have hn : n < as.length := Nat.lt_of_succ_lt_succ h
      have hn' : n < (forEachIdx f (k + 1) as).length := by
        rw [forEachIdx_length]; exact hn
      have ihn := ih (k + 1) n hn hn'
      have hk : k + (n + 1) = k + 1 + n := by omega
      rw [hk]
      exact ihn

namespace RibbonSlider

@[simp] lemma goToSlide_currentSlide (s : RibbonSlider) (j : JsNum) :
    (s.goToSlide j).currentSlide = j := rfl

@[simp] lemma goToSlide_totalSlides (s : RibbonSlider) (j : JsNum) :
    (s.goToSlide j).totalSlides = s.totalSlides := rfl

@[simp] lemma goToSlide_slides_length (s : RibbonSlider) (j : JsNum) :
    (s.goToSlide j).slides.length = s.slides.length := by
  simp [goToSlide]

@[simp] lemma goToSlide_dots_length (s : RibbonSlider) (j : JsNum) :
    (s.goToSlide j).dots.length = s.dots.length := by
  simp [goToSlide]

@[simp] lemma goToSlide_progressBar (s : RibbonSlider) (j : JsNum) :
    (s.goToSlide j).progressBar = s.progressBar := rfl

@[simp] lemma goToSlide_autoPlayInterval (s : RibbonSlider) (j : JsNum) :
    (s.goToSlide j).autoPlayInterval = s.autoPlayInterval := rfl

@[simp] lemma goToSlide_pendingIntervals (s : RibbonSlider) (j : JsNum) :
    (s.goToSlide j).pendingIntervals = s.pendingIntervals := rfl

@[simp] lemma goToSlide_nextTimerId (s : RibbonSlider) (j : JsNum) :
    (s.goToSlide j).nextTimerId = s.nextTimerId := rfl

@[simp] lemma startAutoPlay_currentSlide (s : RibbonSlider) :
    s.startAutoPlay.currentSlide = s.currentSlide := rfl

@[simp] lemma startAutoPlay_slides (s : RibbonSlider) :
    s.startAutoPlay.slides = s.slides := rfl

@[simp] lemma startAutoPlay_dots (s : RibbonSlider) :
    s.startAutoPlay.dots = s.dots := rfl

@[simp] lemma startAutoPlay_totalSlides (s : RibbonSlider) :
    s.startAutoPlay.totalSlides = s.totalSlides := rfl

@[simp] lemma startAutoPlay_progressBar (s : RibbonSlider) :
    s.startAutoPlay.progressBar = s.progressBar := rfl

@[simp] lemma startAutoPlay_autoPlayInterval (s : RibbonSlider) :
    s.startAutoPlay.autoPlayInterval = some s.nextTimerId := rfl

@[simp] lemma startAutoPlay_pendingIntervals (s : RibbonSlider) :
    s.startAutoPlay.pendingIntervals = s.pendingIntervals ++ [s.nextTimerId] := rfl

@[simp] lemma startAutoPlay_nextTimerId (s : RibbonSlider) :
    s.startAutoPlay.nextTimerId = s.nextTimerId + 1 := rfl

@[simp] lemma stopAutoPlay_currentSlide (s : RibbonSlider) :
    s.stopAutoPlay.currentSlide = s.currentSlide := by
  cases h : s.autoPlayInterval <;> simp [stopAutoPlay, h]

@[simp] lemma stopAutoPlay_slides (s : RibbonSlider) :
    s.stopAutoPlay.slides = s.slides := by
  cases h : s.autoPlayInterval <;> simp [stopAutoPlay, h]

@[simp] lemma stopAutoPlay_dots (s : RibbonSlider) :
    s.stopAutoPlay.dots = s.dots := by
  cases h : s.autoPlayInterval <;> simp [stopAutoPlay, h]

@[simp] lemma stopAutoPlay_totalSlides (s : RibbonSlider) :
    s.stopAutoPlay.totalSlides = s.totalSlides := by
  cases h : s.autoPlayInterval <;> simp [stopAutoPlay, h]

@[simp] lemma stopAutoPlay_progressBar (s : RibbonSlider) :
    s.stopAutoPlay.progressBar = s.progressBar := by
  cases h : s.autoPlayInterval <;> simp [stopAutoPlay, h]

@[simp] lemma stopAutoPlay_autoPlayInterval (s : RibbonSlider) :
    s.stopAutoPlay.autoPlayInterval = s.autoPlayInterval := by
  cases h : s.autoPlayInterval <;> simp [stopAutoPlay, h]

@[simp] lemma stopAutoPlay_nextTimerId (s : RibbonSlider) :
    s.stopAutoPlay.nextTimerId = s.nextTimerId := by
  cases h : s.autoPlayInterval <;> simp [stopAutoPlay, h]

end RibbonSlider

@[simp] lemma jsEq_num_num (a b : Int) : jsEq (.num a) (.num b) = (a == b) := rfl

@[simp] lemma jsLt_num_num (a b : Int) : jsLt (.num a) (.num b) = decide (a < b) := rfl

lemma tmod_natCast (a b : Nat) : Int.tmod (a : Int) (b : Int) = ((a % b : Nat) : Int) :=
  rfl

lemma jsMod_num_num_of_pos (a b : Nat) (hb : 0 < b) :
    jsMod (.num a) (.num b) = .num ((a % b : Nat) : Int) := by
  have hb' : ((b : Int)) ≠ 0 := by exact_mod_cast Nat.pos_iff_ne_zero.mp hb
  simp [jsMod, hb', tmod_natCast]

@[simp] lemma jsMod_num_zero (a : JsNum) : jsMod a (.num 0) = .nan := by
  cases a <;> simp [jsMod]

/-! ### Pointwise characterization of `goToSlide` at a natural index -/

@[simp] lemma jsEq_natCast (i j : Nat) :
    jsEq (.num (i : Int)) (.num (j : Int)) = decide (i = j) := by
  simp only [jsEq_num_num]
  by_cases hij : i = j
  · subst hij; simp
  · have h2 : (i : Int) ≠ (j : Int) := by exact_mod_cast hij
    simp [hij, h2]

@[simp] lemma jsLt_natCast (i j : Nat) :
    jsLt (.num (i : Int)) (.num (j : Int)) = decide (i < j) := by
  simp only [jsLt_num_num]
  simp [decide_eq_decide]

namespace RibbonSlider

lemma goToSlide_slides_get (s : RibbonSlider) (j i : Nat)
    (h : i < (s.goToSlide (.num j)).slides.length) :
    (s.goToSlide (.num j)).slides.get ⟨i, h⟩ =
      (if i = j then ⟨true, false, false⟩
       else if i < j then ⟨false, true, false⟩
       else ⟨false, false, true⟩ : SlideClasses) := by
  have h0 : i < s.slides.length := by
    rw [← goToSlide_slides_length s (.num j)]; exact h
  have hget := forEachIdx_get (fun index _ =>
      if jsEq (.num index) (.num (j : Int)) then (⟨true, false, false⟩ : SlideClasses)
      else if jsLt (.num index) (.num (j : Int)) then ⟨false, true, false⟩
      else ⟨false, false, true⟩) s.slides 0 i h0 (by simpa using h0)
  have : (s.goToSlide (.num j)).slides.get ⟨i, h⟩ =
      (if jsEq (.num (i : Int)) (.num (j : Int)) then (⟨true, false, false⟩ : SlideClasses)
       else if jsLt (.num (i : Int)) (.num (j : Int)) then ⟨false, true, false⟩
       else ⟨false, false, true⟩) := by
    simpa [goToSlide] using hget
  rw [this, jsEq_natCast, jsLt_natCast]
  by_cases hij : i = j <;> by_cases hlt : i < j <;> simp [hij, hlt]

lemma goToSlide_dots_get (s : RibbonSlider) (j i : Nat)
    (h : i < (s.goToSlide (.num j)).dots.length) :
    (s.goToSlide (.num j)).dots.get ⟨i, h⟩ = decide (i = j) := by
  have h0 : i < s.dots.length := by
    rw [← goToSlide_dots_length s (.num j)]; exact h
  have hget := forEachIdx_get (fun index _ => jsEq (.num index) (.num (j : Int)))
      s.dots 0 i h0 (by simpa using h0)
  have : (s.goToSlide (.num j)).dots.get ⟨i, h⟩ =
      jsEq (.num (i : Int)) (.num (j : Int)) := by
    simpa [goToSlide] using hget
  rw [this, jsEq_natCast]

lemma countP_forEachIdx_eqIdx {p : β → Bool} {f : Nat → α → β} (j : Nat)
    (hf : ∀ i x, p (f i x) = decide (i = j)) :
    ∀ (l : List α) (k : Nat),
      (forEachIdx f k l).countP p = if k ≤ j ∧ j < k + l.length then 1 else 0 := by
  intro l
  induction l with
  | nil =>
    intro k
    simp only [forEachIdx, List.countP_nil, List.length_nil]
    split_ifs with hcond
    · omega
    · rfl
  | cons a as ih =>
    intro k
    simp only [forEachIdx, List.countP_cons, ih (k + 1), hf, List.length_cons,
      decide_eq_true_eq]
    split_ifs <;> omega

end RibbonSlider

/-! ### `goToSlide` at an in-range index establishes the invariant -/

namespace RibbonSlider

lemma goToSlide_countP_active (s : RibbonSlider) (j : Nat) :
    (s.goToSlide (.num j)).slides.countP (fun sc => sc.active) =
      if j < s.slides.length then 1 else 0 := by
  have aux : ∀ (l : List SlideClasses) (k : Nat),
      (forEachIdx (fun index (_ : SlideClasses) =>
          if jsEq (.num index) (.num (j : Int)) then (⟨true, false, false⟩ : SlideClasses)
          else if jsLt (.num index) (.num (j : Int)) then ⟨false, true, false⟩
          else ⟨false, false, true⟩) k l).countP (fun sc => sc.active)
        = if k ≤ j ∧ j < k + l.length then 1 else 0 := by
    intro l
    induction l with
    | nil =>
      intro k
      simp only [forEachIdx, List.countP_nil, List.length_nil]
      split_ifs <;> omega
    | cons a as ih =>
      intro k
      simp only [forEachIdx, List.countP_cons, List.length_cons]
      rw [ih (k + 1)]
      rw [jsEq_natCast, jsLt_natCast]
      simp only [decide_eq_true_eq]
      rcases Nat.lt_trichotomy k j with h1 | h1 | h1
      · rw [if_neg (show ¬ k = j by omega), if_pos h1]
        norm_num
        split_ifs <;> omega
      · rw [if_pos h1]
        norm_num
        split_ifs <;> omega
      · rw [if_neg (show ¬ k = j by omega), if_neg (show ¬ k < j by omega)]
        norm_num
        split_ifs <;> omega
  have hgoal : (s.goToSlide (.num j)).slides.countP (fun sc => sc.active) =
      if 0 ≤ j ∧ j < 0 + s.slides.length then 1 else 0 := by
    simpa [goToSlide] using aux s.slides 0
  rw [hgoal]
  split_ifs <;> omega

lemma goToSlide_SliderInv (s : RibbonSlider) (j : Nat)
    (hj : j < s.slides.length) :
    SliderInv (s.goToSlide (.num j)) := by
  refine ⟨j, rfl, by simpa using hj, ?_, ?_, ?_⟩
  · rw [goToSlide_countP_active]
    simp [hj]
  · intro i h
    exact goToSlide_slides_get s j i h
  · intro i h
    exact goToSlide_dots_get s j i h

/-! ### Index computation of `nextSlide` and `prevSlide` -/

lemma nextSlide_eq (s : RibbonSlider) (c : Nat)
    (hc : s.currentSlide = .num c) (hb : 0 < s.totalSlides) :
    s.nextSlide = s.goToSlide (.num (((c + 1) % s.totalSlides : Nat) : Int)) := by
  have h1 : jsAdd s.currentSlide (.num 1) = .num ((c + 1 : Nat) : Int) := by
    rw [hc]
    simp [jsAdd]
  rw [nextSlide, h1, jsMod_num_num_of_pos _ _ hb]

lemma prevSlide_eq (s : RibbonSlider) (c : Nat)
    (hc : s.currentSlide = .num c) (hb : 0 < s.totalSlides) :
    s.prevSlide =
      s.goToSlide (.num (((c + s.totalSlides - 1) % s.totalSlides : Nat) : Int)) := by
  have h1 : jsAdd (jsSub s.currentSlide (.num 1)) (.num s.totalSlides) =
      .num ((c + s.totalSlides - 1 : Nat) : Int) := by
    rw [hc]
    simp only [jsSub, jsAdd, JsNum.num.injEq]
    omega
  rw [prevSlide, h1, jsMod_num_num_of_pos _ _ hb]

end RibbonSlider

/-! ### Modular arithmetic helpers for wraparound and inverses -/

lemma natNext_lt (c N : Nat) (hN : 0 < N) : (c + 1) % N < N := Nat.mod_lt _ hN

lemma natPrev_lt (c N : Nat) (hN : 0 < N) : (c + N - 1) % N < N := Nat.mod_lt _ hN

lemma natPrev_natNext (c N : Nat) (h : c < N) :
    ((c + 1) % N + N - 1) % N = c := by
  rcases Nat.lt_or_ge (c + 1) N with h1 | h1
  · rw [Nat.mod_eq_of_lt h1]
    have h2 : c + 1 + N - 1 = c + N := by omega
    rw [h2, Nat.add_mod_right, Nat.mod_eq_of_lt h]
  · have h2 : c + 1 = N := by omega
    rw [h2, Nat.mod_self]
    have h3 : 0 + N - 1 = c := by omega
    rw [h3, Nat.mod_eq_of_lt h]

lemma natNext_natPrev (c N : Nat) (h : c < N) :
    ((c + N - 1) % N + 1) % N = c := by
  rcases Nat.eq_zero_or_pos c with rfl | hc
  · have h2 : 0 + N - 1 = N - 1 := by omega
    rw [h2, Nat.mod_eq_of_lt (show N - 1 < N by omega)]
    have h3 : N - 1 + 1 = N := by omega
    rw [h3, Nat.mod_self]
  · have h2 : c + N - 1 = (c - 1) + N := by omega
    rw [h2, Nat.add_mod_right, Nat.mod_eq_of_lt (show c - 1 < N by omega)]
    have h3 : c - 1 + 1 = c := by omega
    rw [h3, Nat.mod_eq_of_lt h]

/-! ### Reachability: every nonempty run of deck commands re-establishes
the invariant -/

lemma applyDeckOp_goToSlide (s : RibbonSlider) (op : DeckOp)
    (hWF : s.totalSlides = s.slides.length)
    (hok : CurrentOK s) (hv : op.valid s.slides.length) :
    ∃ j : Nat, j < s.slides.length ∧ applyDeckOp s op = s.goToSlide (.num j) := by
  obtain ⟨c, hc, hlt⟩ := hok
  have hb : 0 < s.totalSlides := by omega
  cases op with
  | goTo i => exact ⟨i, hv, rfl⟩
  | next =>
    refine ⟨(c + 1) % s.totalSlides, ?_, ?_⟩
    · rw [hWF] at *
      exact natNext_lt c _ (by omega)
    · exact RibbonSlider.nextSlide_eq s c hc hb
  | prev =>
    refine ⟨(c + s.totalSlides - 1) % s.totalSlides, ?_, ?_⟩
    · rw [hWF] at *
      exact natPrev_lt c _ (by omega)
    · exact RibbonSlider.prevSlide_eq s c hc hb

lemma applyDeckOp_preserves (s : RibbonSlider) (op : DeckOp) :
    (applyDeckOp s op).slides.length = s.slides.length ∧
    (applyDeckOp s op).dots.length = s.dots.length ∧
    (applyDeckOp s op).totalSlides = s.totalSlides := by
  cases op <;>
    simp [applyDeckOp, RibbonSlider.nextSlide, RibbonSlider.prevSlide]

lemma applyDeckOp_CurrentOK (s : RibbonSlider) (op : DeckOp)
    (hWF : s.totalSlides = s.slides.length)
    (hok : CurrentOK s) (hv : op.valid s.slides.length) :
    CurrentOK (applyDeckOp s op) := by
  obtain ⟨j, hj, heq⟩ := applyDeckOp_goToSlide s op hWF hok hv
  rw [heq]
  exact ⟨j, rfl, by simpa using hj⟩

lemma runDeck_facts (ops : List DeckOp) : ∀ (s : RibbonSlider),
    s.totalSlides = s.slides.length → CurrentOK s →
    (∀ op ∈ ops, op.valid s.slides.length) →
    CurrentOK (runDeck s ops) ∧
    (runDeck s ops).totalSlides = (runDeck s ops).slides.length ∧
    (runDeck s ops).slides.length = s.slides.length ∧
    (runDeck s ops).dots.length = s.dots.length := by
  induction ops with
  | nil => intro s h1 h2 _; exact ⟨h2, h1, rfl, rfl⟩
  | cons op ops ih =>
    intro s h1 h2 h3
    obtain ⟨hsl, hdl, hts⟩ := applyDeckOp_preserves s op
    have hWF' : (applyDeckOp s op).totalSlides = (applyDeckOp s op).slides.length := by
      rw [hts, hsl]; exact h1
    have hok' : CurrentOK (applyDeckOp s op) :=
      applyDeckOp_CurrentOK s op h1 h2 (h3 op (List.mem_cons_self op ops))
    have hv' : ∀ o ∈ ops, o.valid (applyDeckOp s op).slides.length := by
      intro o ho
      rw [hsl]
      exact h3 o (List.mem_cons_of_mem op ho)
    have hrun : runDeck s (op :: ops) = runDeck (applyDeckOp s op) ops := rfl
    obtain ⟨r1, r2, r3, r4⟩ := ih (applyDeckOp s op) hWF' hok' hv'
    rw [hrun]
    exact ⟨r1, r2, by rw [r3, hsl], by rw [r4, hdl]⟩

lemma runDeck_SliderInv (s : RibbonSlider) (ops : List DeckOp)
    (hWF : s.totalSlides = s.slides.length)
    (hok : CurrentOK s)
    (hvalid : ∀ op ∈ ops, op.valid s.slides.length)
    (hne : ops ≠ []) :
    SliderInv (runDeck s ops) := by
  obtain ⟨L, b, hLb⟩ := (List.eq_nil_or_concat ops).resolve_left hne
  subst hLb
  have hL : ∀ op ∈ L, op.valid s.slides.length := by
    intro o ho
    exact hvalid o (by simp [List.concat_eq_append, ho])
  have hb : b.valid s.slides.length := hvalid b (by simp [List.concat_eq_append])
  obtain ⟨rok, rWF, rlen, _⟩ := runDeck_facts L s hWF hok hL
  have hrun : runDeck s (L.concat b) = applyDeckOp (runDeck s L) b := by
    simp [runDeck, List.concat_eq_append, List.foldl_append]
  rw [hrun]
  obtain ⟨j, hj, heq⟩ := applyDeckOp_goToSlide (runDeck s L) b rWF rok (by rw [rlen]; exact hb)
  rw [heq]
  exact RibbonSlider.goToSlide_SliderInv (runDeck s L) j hj

/-! ### Idempotence of `goToSlide` on invariant states -/

lemma goToSlide_self_of_inv (s : RibbonSlider) (h : SliderInv s) :
    s.goToSlide s.currentSlide = s := by
  obtain ⟨c, hc, hlt, _, hslides, hdots⟩ := h
  rw [hc]
  ext1
  case currentSlide => exact hc.symm
  case slides =>
    apply List.ext_get (by simp)
    intro i h1 h2
    rw [RibbonSlider.goToSlide_slides_get s c i h1]
    exact (hslides i h2).symm
  case dots =>
    apply List.ext_get (by simp)
    intro i h1 h2
    rw [RibbonSlider.goToSlide_dots_get s c i h1]
    exact (hdots i h2).symm
  case totalSlides => rfl
  case autoPlayInterval => rfl
  case progressBar => rfl
  case touchStartX => rfl
  case touchEndX => rfl
  case pendingIntervals => rfl
  case nextTimerId => rfl

/-! ### Iterating `nextSlide` -/

lemma nextSlide_iter (k : Nat) : ∀ (s : RibbonSlider) (c : Nat),
    s.totalSlides = s.slides.length → s.currentSlide = .num c →
    c < s.slides.length →
    ((fun t => RibbonSlider.nextSlide t)^[k] s).currentSlide =
      .num (((c + k) % s.slides.length : Nat) : Int) ∧
    ((fun t => RibbonSlider.nextSlide t)^[k] s).slides.length = s.slides.length ∧
    ((fun t => RibbonSlider.nextSlide t)^[k] s).totalSlides = s.totalSlides := by
  induction k with
  | zero =>
    intro s c hWF hc hlt
    refine ⟨?_, rfl, rfl⟩
    simp only [Function.iterate_zero, id]
    rw [hc, Nat.add_zero, Nat.mod_eq_of_lt hlt]
  | succ k ih =>
    intro s c hWF hc hlt
    have hb : 0 < s.totalSlides := by omega
    have hstep : s.nextSlide = s.goToSlide (.num (((c + 1) % s.totalSlides : Nat) : Int)) :=
      RibbonSlider.nextSlide_eq s c hc hb
    have hWF1 : s.nextSlide.totalSlides = s.nextSlide.slides.length := by
      rw [hstep]; simpa using hWF
    have hc1 : s.nextSlide.currentSlide = .num (((c + 1) % s.totalSlides : Nat) : Int) := by
      rw [hstep]; rfl
    have hlt1 : (c + 1) % s.totalSlides < s.nextSlide.slides.length := by
      rw [hstep]
      simpa using (by rw [hWF]; exact natNext_lt c _ (by omega) : (c + 1) % s.totalSlides < s.slides.length)
    obtain ⟨r1, r2, r3⟩ := ih s.nextSlide ((c + 1) % s.totalSlides) hWF1 hc1 hlt1
    have hlen1 : s.nextSlide.slides.length = s.slides.length := by
      rw [hstep]; simp
    refine ⟨?_, ?_, ?_⟩
    · rw [Function.iterate_succ_apply]
      rw [r1, hlen1, hWF]
      have harith : ((c + 1) % s.slides.length + k) % s.slides.length =
          (c + (k + 1)) % s.slides.length := by
        rw [Nat.mod_add_mod]
        congr 1
        omega
      rw [harith]
    · rw [Function.iterate_succ_apply, r2, hlen1]
    · rw [Function.iterate_succ_apply, r3]
      rw [hstep]; simp

/-! ### Timer facts -/

namespace RibbonSlider

lemma stopAutoPlay_pending_of_TimerInv (s : RibbonSlider) (h : TimerInv s) :
    s.stopAutoPlay.pendingIntervals = [] := by
  rcases h with h | ⟨id, h1, h2⟩
  · cases hA : s.autoPlayInterval <;> simp [stopAutoPlay, hA, h]
  · simp [stopAutoPlay, h1, h2]

lemma restartProgressBar_timerFields (s : RibbonSlider) :
    (exceptState s.restartProgressBar).pendingIntervals = s.pendingIntervals ∧
    (exceptState s.restartProgressBar).autoPlayInterval = s.autoPlayInterval ∧
    (exceptState s.restartProgressBar).currentSlide = s.currentSlide ∧
    (exceptState s.restartProgressBar).nextTimerId = s.nextTimerId := by
  cases h : s.progressBar <;> simp [restartProgressBar, exceptState, h]

lemma restartAutoPlay_TimerInv (s : RibbonSlider) (h : TimerInv s) :
    TimerInv (exceptState s.restartAutoPlay) := by
  have hstop := stopAutoPlay_pending_of_TimerInv s h
  have hstart : TimerInv s.stopAutoPlay.startAutoPlay :=
    Or.inr ⟨s.stopAutoPlay.nextTimerId, rfl, by simp [hstop]⟩
  obtain ⟨p1, p2, _, _⟩ := restartProgressBar_timerFields s.stopAutoPlay.startAutoPlay
  rcases hstart with h1 | ⟨id, h1, h2⟩
  · exact Or.inl (by rw [restartAutoPlay, p1]; exact h1)
  · exact Or.inr ⟨id, by rw [restartAutoPlay, p2]; exact h1,
      by rw [restartAutoPlay, p1]; exact h2⟩

end RibbonSlider

namespace RibbonSlider

/-- When the progress-fill element is present, `restartAutoPlay` returns
normally with the schedule replaced by one fresh interval. -/
lemma restartAutoPlay_ok (t : RibbonSlider) (pb : String)
    (hpb : t.progressBar = some pb) :
    ∃ u, t.restartAutoPlay = .ok u ∧
      u.currentSlide = t.currentSlide ∧
      u.autoPlayInterval = some t.nextTimerId ∧
      t.nextTimerId ∈ u.pendingIntervals ∧
      u.nextTimerId = t.nextTimerId + 1 ∧
      u.slides = t.slides ∧
      u.dots = t.dots ∧
      u.totalSlides = t.totalSlides := by
  have hpb2 : t.stopAutoPlay.startAutoPlay.progressBar = some pb := by simp [hpb]
  refine ⟨{ t.stopAutoPlay.startAutoPlay with progressBar := some "none" }, ?_,
    by simp, by simp, by simp, by simp, by simp, by simp, by simp⟩
  rw [restartAutoPlay, restartProgressBar, hpb2]

/-- When the progress-fill element is absent, `restartAutoPlay` throws —
but only after the timer has already been stopped and restarted. -/
lemma restartAutoPlay_error (t : RibbonSlider) (hpb : t.progressBar = none) :
    ∃ u, t.restartAutoPlay = .error u ∧
      u.currentSlide = t.currentSlide ∧
      u.autoPlayInterval = some t.nextTimerId ∧
      t.nextTimerId ∈ u.pendingIntervals ∧
      u.slides = t.slides := by
  have hpb2 : t.stopAutoPlay.startAutoPlay.progressBar = none := by simp [hpb]
  refine ⟨t.stopAutoPlay.startAutoPlay, ?_, by simp, by simp, by simp, by simp⟩
  rw [restartAutoPlay, restartProgressBar, hpb2]

end RibbonSlider

/-! ### Timer exclusivity under stop/restart sequences -/

lemma applyTimerOp_TimerInv (s : RibbonSlider) (op : TimerOp) (h : TimerInv s) :
    TimerInv (applyTimerOp s op) := by
  cases op with
  | stop => exact Or.inl (RibbonSlider.stopAutoPlay_pending_of_TimerInv s h)
  | restart => exact RibbonSlider.restartAutoPlay_TimerInv s h

lemma runTimer_TimerInv (ops : List TimerOp) : ∀ (s : RibbonSlider),
    TimerInv s → TimerInv (runTimer s ops) := by
  induction ops with
  | nil => intro s h; exact h
  | cons op ops ih =>
    intro s h
    exact ih (applyTimerOp s op) (applyTimerOp_TimerInv s op h)

lemma TimerInv_length (s : RibbonSlider) (h : TimerInv s) :
    s.pendingIntervals.length ≤ 1 := by
  rcases h with h | ⟨id, _, h2⟩
  · simp [h]
  · simp [h2]

lemma construct_TimerInv (slides : List SlideClasses) (dots : List Bool)
    (pb : Option String) : TimerInv (RibbonSlider.construct slides dots pb) :=
  Or.inr ⟨1, rfl, rfl⟩

/-! ### Sample states for witnesses and counterexamples -/

/-- A slide whose markup carries none of the three classes yet. -/
def blankSlide : SlideClasses := ⟨false, false, false⟩

/-- A freshly constructed three-slide slider with three dots and a
progress-fill element. -/
def sample3 : RibbonSlider :=
  RibbonSlider.construct [blankSlide, blankSlide, blankSlide]
    [false, false, false] (some "idle")

/-- A freshly constructed slider over a page with no slides and no dots. -/
def sampleEmpty : RibbonSlider :=
  RibbonSlider.construct [] [] (some "idle")

/-- A freshly constructed three-slide slider on a page with no
`.progress-fill` element. -/
def sampleNoBar : RibbonSlider :=
  RibbonSlider.construct [blankSlide, blankSlide, blankSlide]
    [false, false, false] none

/-! ### Claims -/

/-- Claim C1: for a slider with `N ≥ 1` slides and one dot per slide, after
any nonempty sequence of `goToSlide`/`nextSlide`/`prevSlide` calls (dot
clicks supply in-range indices), exactly one slide carries `active`, its
index equals `currentSlide`, every smaller index carries `prev`, every
larger index carries `next`, and exactly the dot at `currentSlide` is
selected (`SliderInv`); moreover one dot per slide persists. -/
theorem ribbon_reachable_invariant (s0 : RibbonSlider) (ops : List DeckOp)
    (hWF : s0.totalSlides = s0.slides.length)
    (hdots : s0.dots.length = s0.slides.length)
    (hN : 1 ≤ s0.slides.length)
    (hcur : s0.currentSlide = .num 0)
    (hvalid : ∀ op ∈ ops, op.valid s0.slides.length)
    (hne : ops ≠ []) :
    SliderInv (runDeck s0 ops) ∧
    (runDeck s0 ops).dots.length = (runDeck s0 ops).slides.length := by
  have hok : CurrentOK s0 := ⟨0, by simpa using hcur, hN⟩
  obtain ⟨_, _, r3, r4⟩ := runDeck_facts ops s0 hWF hok hvalid
  exact ⟨runDeck_SliderInv s0 ops hWF hok hvalid hne,
    by rw [r3, r4, hdots]⟩

/-- Witness for C1 at a concrete three-slide slider and one `nextSlide`. -/
theorem ribbon_reachable_invariant_witness :
    SliderInv (runDeck sample3 [DeckOp.next]) ∧
    (runDeck sample3 [DeckOp.next]).dots.length =
      (runDeck sample3 [DeckOp.next]).slides.length :=
  ribbon_reachable_invariant sample3 [DeckOp.next] rfl rfl (by decide) rfl
    (by decide) (by decide)

/-- Claim C7: the derived slide/dot presentation is determined by
`currentSlide` alone — on every reachable state, calling
`goToSlide(currentSlide)` again changes nothing at all. -/
theorem goToSlide_idempotent_on_reachable (s0 : RibbonSlider) (ops : List DeckOp)
    (hWF : s0.totalSlides = s0.slides.length)
    (hN : 1 ≤ s0.slides.length)
    (hcur : s0.currentSlide = .num 0)
    (hvalid : ∀ op ∈ ops, op.valid s0.slides.length)
    (hne : ops ≠ []) :
    (runDeck s0 ops).goToSlide (runDeck s0 ops).currentSlide = runDeck s0 ops :=
  goToSlide_self_of_inv _
    (runDeck_SliderInv s0 ops hWF ⟨0, by simpa using hcur, hN⟩ hvalid hne)

/-- Witness for C7 at a concrete three-slide slider after a dot click. -/
theorem goToSlide_idempotent_on_reachable_witness :
    (runDeck sample3 [DeckOp.goTo 1]).goToSlide
        (runDeck sample3 [DeckOp.goTo 1]).currentSlide =
      runDeck sample3 [DeckOp.goTo 1] :=
  goToSlide_idempotent_on_reachable sample3 [DeckOp.goTo 1] rfl (by decide) rfl
    (by decide) (by decide)

/-- Claim C6: with `N ≥ 1` slides, `nextSlide` applied `N` times returns
`currentSlide` to its starting value, and `prevSlide` is the exact inverse
of `nextSlide` on `currentSlide` (in both orders). -/
theorem advance_retreat_wraparound (s : RibbonSlider) (c : Nat)
    (hWF : s.totalSlides = s.slides.length)
    (hc : s.currentSlide = .num c)
    (hlt : c < s.slides.length) :
    ((fun t => RibbonSlider.nextSlide t)^[s.slides.length] s).currentSlide =
      s.currentSlide ∧
    s.nextSlide.prevSlide.currentSlide = s.currentSlide ∧
    s.prevSlide.nextSlide.currentSlide = s.currentSlide := by
  have hb : 0 < s.totalSlides := by omega
  refine ⟨?_, ?_, ?_⟩
  · obtain ⟨r1, _, _⟩ := nextSlide_iter s.slides.length s c hWF hc hlt
    have hkey : (c + s.slides.length) % s.slides.length = c := by
      rw [Nat.add_mod_right, Nat.mod_eq_of_lt hlt]
    rw [r1, hkey, hc]
  · have hnext := RibbonSlider.nextSlide_eq s c hc hb
    have hc1 : s.nextSlide.currentSlide =
        .num (((c + 1) % s.totalSlides : Nat) : Int) := by
      rw [hnext]; rfl
    have hb1 : 0 < s.nextSlide.totalSlides := by rw [hnext]; simpa using hb
    have htot : s.nextSlide.totalSlides = s.totalSlides := by rw [hnext]; simp
    have hprev := RibbonSlider.prevSlide_eq s.nextSlide ((c + 1) % s.totalSlides) hc1 hb1
    have hkey : ((c + 1) % s.totalSlides + s.totalSlides - 1) % s.totalSlides = c := by
      rw [hWF]; exact natPrev_natNext c s.slides.length hlt
    have h2 : s.nextSlide.prevSlide.currentSlide =
        .num ((((c + 1) % s.totalSlides + s.totalSlides - 1) % s.totalSlides : Nat) : Int) := by
      rw [hprev]
      simp only [RibbonSlider.goToSlide_currentSlide, htot]
    rw [h2, hkey, hc]
  · have hprev0 := RibbonSlider.prevSlide_eq s c hc hb
    have hc2 : s.prevSlide.currentSlide =
        .num (((c + s.totalSlides - 1) % s.totalSlides : Nat) : Int) := by
      rw [hprev0]; rfl
    have hb2 : 0 < s.prevSlide.totalSlides := by rw [hprev0]; simpa using hb
    have htot2 : s.prevSlide.totalSlides = s.totalSlides := by rw [hprev0]; simp
    have hnext2 := RibbonSlider.nextSlide_eq s.prevSlide
      ((c + s.totalSlides - 1) % s.totalSlides) hc2 hb2
    have hkey2 : ((c + s.totalSlides - 1) % s.totalSlides + 1) % s.totalSlides = c := by
      rw [hWF]; exact natNext_natPrev c s.slides.length hlt
    have h3 : s.prevSlide.nextSlide.currentSlide =
        .num ((((c + s.totalSlides - 1) % s.totalSlides + 1) % s.totalSlides : Nat) : Int) := by
      rw [hnext2]
      simp only [RibbonSlider.goToSlide_currentSlide, htot2]
    rw [h3, hkey2, hc]

/-- Witness for C6 at a concrete three-slide slider starting at index 0. -/
theorem advance_retreat_wraparound_witness :
    ((fun t => RibbonSlider.nextSlide t)^[sample3.slides.length] sample3).currentSlide =
      sample3.currentSlide ∧
    sample3.nextSlide.prevSlide.currentSlide = sample3.currentSlide ∧
    sample3.prevSlide.nextSlide.currentSlide = sample3.currentSlide :=
  advance_retreat_wraparound sample3 0 rfl rfl (by decide)

/-- Claim C2, counterexample: calling `startAutoPlay()` on the freshly
constructed (already running) slider is not a no-op — it leaves two
recurring schedules pending, refuting both halves of the claim. -/
theorem startAutoPlay_double_schedule :
    (RibbonSlider.startAutoPlay sample3).pendingIntervals.length = 2 ∧
    RibbonSlider.startAutoPlay sample3 ≠ sample3 := by
  constructor
  · rfl
  · decide

/-- Claim C2, amended: after any finite interleaving of `stopAutoPlay()` and
`restartAutoPlay()` calls starting from the freshly constructed slider
(whose `init()` performed the single initial start), at most one recurring
scheduled advance is pending. -/
theorem timer_exclusive_stop_restart (slides : List SlideClasses)
    (dots : List Bool) (pb : Option String) (ops : List TimerOp) :
    (runTimer (RibbonSlider.construct slides dots pb) ops).pendingIntervals.length ≤ 1 :=
  TimerInv_length _
    (runTimer_TimerInv ops _ (construct_TimerInv slides dots pb))

/-- Claim C5, counterexample: with zero slides and zero dots, `nextSlide()`
is not a no-op — `(0 + 1) % 0` is NaN and `goToSlide(NaN)` stores it, so
`currentSlide` changes from `0` to NaN. -/
theorem nextSlide_zero_slides_changes_state :
    RibbonSlider.nextSlide sampleEmpty ≠ sampleEmpty ∧
    (RibbonSlider.nextSlide sampleEmpty).currentSlide = JsNum.nan ∧
    sampleEmpty.currentSlide = JsNum.num 0 := by
  refine ⟨by decide, rfl, rfl⟩

/-- Claim C5, amended: with zero slides and zero dots no fault is raised and
the slide/dot presentation is untouched, but `currentSlide` is still
written: `goToSlide(j)` stores `j`, and `nextSlide`/`prevSlide` store NaN
(the result of the modulo by zero). -/
theorem zero_slides_only_currentSlide_changes (s : RibbonSlider)
    (hs : s.slides = []) (hd : s.dots = []) (ht : s.totalSlides = 0) :
    (∀ j : JsNum, s.goToSlide j = { s with currentSlide := j }) ∧
    s.nextSlide = { s with currentSlide := JsNum.nan } ∧
    s.prevSlide = { s with currentSlide := JsNum.nan } := by
  have hgoto : ∀ j : JsNum, s.goToSlide j = { s with currentSlide := j } := by
    intro j
    rw [RibbonSlider.goToSlide, hs, hd]
    rfl
  refine ⟨hgoto, ?_, ?_⟩
  · have harg : jsMod (jsAdd s.currentSlide (.num 1)) (.num (s.totalSlides : Int)) =
        JsNum.nan := by
      rw [ht]; simp
    rw [RibbonSlider.nextSlide, harg]
    exact hgoto JsNum.nan
  · have harg : jsMod (jsAdd (jsSub s.currentSlide (.num 1)) (.num (s.totalSlides : Int)))
        (.num (s.totalSlides : Int)) = JsNum.nan := by
      rw [ht]; simp
    rw [RibbonSlider.prevSlide, harg]
    exact hgoto JsNum.nan

/-- Witness for the amended C5 at the concrete zero-slide slider. -/
theorem zero_slides_only_currentSlide_changes_witness :
    (∀ j : JsNum, sampleEmpty.goToSlide j = { sampleEmpty with currentSlide := j }) ∧
    sampleEmpty.nextSlide = { sampleEmpty with currentSlide := JsNum.nan } ∧
    sampleEmpty.prevSlide = { sampleEmpty with currentSlide := JsNum.nan } :=
  zero_slides_only_currentSlide_changes sampleEmpty rfl rfl rfl

/-- Claim C9: `goToSlide(idx)` with `idx ≥ N` (reachable from a dot click
when there are more dots than slides) marks every slide `prev`, leaves no
slide `active`, stores the out-of-range index in `currentSlide`, and
breaks the exactly-one-active invariant — which `goToSlide` itself never
enforces. -/
theorem goToSlide_out_of_range_breaks_invariant (s : RibbonSlider) (idx : Nat)
    (hN : 1 ≤ s.slides.length) (hidx : s.slides.length ≤ idx) :
    (s.goToSlide (.num idx)).currentSlide = .num idx ∧
    (∀ i (h : i < (s.goToSlide (.num idx)).slides.length),
        (s.goToSlide (.num idx)).slides.get ⟨i, h⟩ = ⟨false, true, false⟩) ∧
    (s.goToSlide (.num idx)).slides.countP (fun sc => sc.active) = 0 ∧
    ¬ SliderInv (s.goToSlide (.num idx)) := by
  refine ⟨rfl, ?_, ?_, ?_⟩
  · intro i h
    rw [RibbonSlider.goToSlide_slides_get s idx i h]
    have h0 : i < s.slides.length := by simpa using h
    rw [if_neg (show ¬ i = idx by omega), if_pos (show i < idx by omega)]
  · rw [RibbonSlider.goToSlide_countP_active]
    rw [if_neg (show ¬ idx < s.slides.length by omega)]
  · rintro ⟨c, hc, hclt, _, _, _⟩
    have hcs : (s.goToSlide (.num idx)).currentSlide = .num idx := rfl
    rw [hcs] at hc
    have hic : (idx : Int) = (c : Int) := by injection hc
    have hnc : idx = c := by exact_mod_cast hic
    rw [RibbonSlider.goToSlide_slides_length] at hclt
    omega

/-- Witness for C9: jumping to index 5 on the three-slide slider. -/
theorem goToSlide_out_of_range_breaks_invariant_witness :
    (sample3.goToSlide (.num 5)).currentSlide = .num 5 ∧
    (∀ i (h : i < (sample3.goToSlide (.num 5)).slides.length),
        (sample3.goToSlide (.num 5)).slides.get ⟨i, h⟩ = ⟨false, true, false⟩) ∧
    (sample3.goToSlide (.num 5)).slides.countP (fun sc => sc.active) = 0 ∧
    ¬ SliderInv (sample3.goToSlide (.num 5)) :=
  goToSlide_out_of_range_breaks_invariant sample3 5 (by decide) (by decide)

/-- Claim C8: on transition to hidden the visibility handler stops the
autoplay timer; on transition to visible it starts it via `startAutoPlay`
(not `restartAutoPlay`): ticking resumes (a schedule is pending) while the
progress indicator and `currentSlide` are untouched by both transitions;
stopping cancels the single pending schedule. -/
theorem visibility_stop_start (s : RibbonSlider) :
    onVisibilityChange s true = s.stopAutoPlay ∧
    onVisibilityChange s false = s.startAutoPlay ∧
    s.stopAutoPlay.currentSlide = s.currentSlide ∧
    s.stopAutoPlay.progressBar = s.progressBar ∧
    s.startAutoPlay.currentSlide = s.currentSlide ∧
    s.startAutoPlay.progressBar = s.progressBar ∧
    s.startAutoPlay.pendingIntervals ≠ [] ∧
    (∀ id, s.autoPlayInterval = some id → s.pendingIntervals = [id] →
      s.stopAutoPlay.pendingIntervals = []) := by
  refine ⟨rfl, rfl, by simp, by simp, rfl, rfl, by simp, ?_⟩
  intro id h1 h2
  exact RibbonSlider.stopAutoPlay_pending_of_TimerInv s (Or.inr ⟨id, h1, h2⟩)

/-- Witness for C8 at the concrete constructed slider (its single pending
schedule is cancelled by the hidden transition). -/
theorem visibility_stop_start_witness :
    (onVisibilityChange sample3 true).pendingIntervals = [] := by
  have h := (visibility_stop_start sample3).2.2.2.2.2.2.2 1 rfl rfl
  have he : onVisibilityChange sample3 true = sample3.stopAutoPlay :=
    (visibility_stop_start sample3).1
  rw [he, h]

/-! ### Branch equations for `handleSwipe` -/

namespace RibbonSlider

lemma handleSwipe_pos (t : RibbonSlider)
    (h1 : CONFIG.SWIPE_THRESHOLD < (t.touchStartX - t.touchEndX).natAbs)
    (h2 : 0 < t.touchStartX - t.touchEndX) :
    t.handleSwipe = t.nextSlide.restartAutoPlay := by
  simp only [handleSwipe]
  rw [if_pos h1, if_pos h2]

lemma handleSwipe_neg (t : RibbonSlider)
    (h1 : CONFIG.SWIPE_THRESHOLD < (t.touchStartX - t.touchEndX).natAbs)
    (h2 : ¬ 0 < t.touchStartX - t.touchEndX) :
    t.handleSwipe = t.prevSlide.restartAutoPlay := by
  simp only [handleSwipe]
  rw [if_pos h1, if_neg h2]

lemma handleSwipe_small (t : RibbonSlider)
    (h1 : ¬ CONFIG.SWIPE_THRESHOLD < (t.touchStartX - t.touchEndX).natAbs) :
    t.handleSwipe = .ok t := by
  simp only [handleSwipe]
  rw [if_neg h1]

end RibbonSlider

/-- Claim C3: for a touch gesture recorded as touch-start at `startX` and
touch-end at `endX` with `diff = startX - endX`: if `|diff| > 50` the
slider advances (`diff > 0`) or retreats (`diff < 0`) and the autoplay
timer is restarted (fresh schedule, handle updated, id consumed); if
`|diff| ≤ 50` nothing besides the recorded end coordinate changes — no
slide change and no autoplay restart. -/
theorem handleSwipe_threshold_behavior (s : RibbonSlider) (startX endX : Int)
    (c : Nat) (pb : String)
    (hWF : s.totalSlides = s.slides.length)
    (hc : s.currentSlide = .num c)
    (hlt : c < s.slides.length)
    (hpb : s.progressBar = some pb) :
    (CONFIG.SWIPE_THRESHOLD < (startX - endX).natAbs → 0 < startX - endX →
      ∃ s1, (RibbonSlider.handleTouchStart s startX).handleTouchEnd endX = .ok s1 ∧
        s1.currentSlide = .num (((c + 1) % s.slides.length : Nat) : Int) ∧
        s1.autoPlayInterval = some s.nextTimerId ∧
        s.nextTimerId ∈ s1.pendingIntervals ∧
        s1.nextTimerId = s.nextTimerId + 1) ∧
    (CONFIG.SWIPE_THRESHOLD < (startX - endX).natAbs → startX - endX < 0 →
      ∃ s1, (RibbonSlider.handleTouchStart s startX).handleTouchEnd endX = .ok s1 ∧
        s1.currentSlide = .num (((c + s.slides.length - 1) % s.slides.length : Nat) : Int) ∧
        s1.autoPlayInterval = some s.nextTimerId ∧
        s.nextTimerId ∈ s1.pendingIntervals ∧
        s1.nextTimerId = s.nextTimerId + 1) ∧
    ((startX - endX).natAbs ≤ CONFIG.SWIPE_THRESHOLD →
      (RibbonSlider.handleTouchStart s startX).handleTouchEnd endX =
        .ok { s with touchStartX := startX, touchEndX := endX }) := by
  have hb : 0 < s.totalSlides := by omega
  have hcomp : (RibbonSlider.handleTouchStart s startX).handleTouchEnd endX =
      RibbonSlider.handleSwipe
        { s with touchStartX := startX, touchEndX := endX } := rfl
  refine ⟨?_, ?_, ?_⟩
  · intro hgt hpos
    have hs2 := RibbonSlider.handleSwipe_pos
      { s with touchStartX := startX, touchEndX := endX } hgt hpos
    have hnext := RibbonSlider.nextSlide_eq
      ({ s with touchStartX := startX, touchEndX := endX } : RibbonSlider) c hc hb
    obtain ⟨u, hu, u1, u2, u3, u4, _, _, _⟩ :=
      RibbonSlider.restartAutoPlay_ok
        ({ s with touchStartX := startX, touchEndX := endX } : RibbonSlider).nextSlide pb hpb
    refine ⟨u, ?_, ?_, u2, u3, u4⟩
    · rw [hcomp, hs2, hu]
    · have hcur : ({ s with touchStartX := startX, touchEndX := endX } :
          RibbonSlider).nextSlide.currentSlide =
          .num (((c + 1) % s.totalSlides : Nat) : Int) := by
        rw [hnext]; rfl
      rw [u1, hcur, hWF]
  · intro hgt hneg
    have hs2 := RibbonSlider.handleSwipe_neg
      { s with touchStartX := startX, touchEndX := endX } hgt
      (show ¬ 0 < startX - endX by omega)
    have hprev := RibbonSlider.prevSlide_eq
      ({ s with touchStartX := startX, touchEndX := endX } : RibbonSlider) c hc hb
    obtain ⟨u, hu, u1, u2, u3, u4, _, _, _⟩ :=
      RibbonSlider.restartAutoPlay_ok
        ({ s with touchStartX := startX, touchEndX := endX } : RibbonSlider).prevSlide pb hpb
    refine ⟨u, ?_, ?_, u2, u3, u4⟩
    · rw [hcomp, hs2, hu]
    · have hcur : ({ s with touchStartX := startX, touchEndX := endX } :
          RibbonSlider).prevSlide.currentSlide =
          .num (((c + s.totalSlides - 1) % s.totalSlides : Nat) : Int) := by
        rw [hprev]; rfl
      rw [u1, hcur, hWF]
  · intro hle
    rw [hcomp, RibbonSlider.handleSwipe_small _ (not_lt.mpr hle)]

/-- Witness for C3: the spec's Scenario B, `startX = 300`, `endX = 200`
(`diff = 100 > 50`) on the fresh three-slide slider advances to slide 1
and restarts the timer. -/
theorem handleSwipe_threshold_behavior_witness :
    ∃ s1, (RibbonSlider.handleTouchStart sample3 300).handleTouchEnd 200 = .ok s1 ∧
      s1.currentSlide = .num (((0 + 1) % sample3.slides.length : Nat) : Int) ∧
      s1.autoPlayInterval = some sample3.nextTimerId ∧
      sample3.nextTimerId ∈ s1.pendingIntervals ∧
      s1.nextTimerId = sample3.nextTimerId + 1 :=
  (handleSwipe_threshold_behavior sample3 300 200 0 "idle" rfl rfl (by decide) rfl).1
    (by decide) (by decide)

/-- Claim C4, counterexample: a touch-end at `clientX = 100` with no
preceding touch-start (start coordinate still at its default `0`) is not
a below-threshold no-op: `diff = -100`, so `prevSlide` fires (the slide
jumps from 0 to 2) and the autoplay timer is restarted (handle moves from
interval 1 to interval 2). -/
theorem touchEnd_default_start_fires_swipe :
    (exceptState (RibbonSlider.handleTouchEnd sample3 100)).currentSlide = JsNum.num 2 ∧
    sample3.currentSlide = JsNum.num 0 ∧
    (exceptState (RibbonSlider.handleTouchEnd sample3 100)).autoPlayInterval = some 2 ∧
    sample3.autoPlayInterval = some 1 :=
  ⟨rfl, rfl, rfl, rfl⟩

/-- Claim C4, amended: a touch-end without a preceding touch-start computes
against the default start coordinate `0` and never crashes, but `0` is a
spurious-swipe-proof sentinel only for end coordinates within the
threshold: `|endX| ≤ 50` is a no-op, while `endX > 50` fires a retreat
and `endX < -50` an advance, each restarting autoplay. -/
theorem touchEnd_default_start_behavior (s : RibbonSlider) (c : Nat) (pb : String)
    (hstart : s.touchStartX = 0)
    (hpb : s.progressBar = some pb)
    (hWF : s.totalSlides = s.slides.length)
    (hc : s.currentSlide = .num c)
    (hlt : c < s.slides.length) :
    (∀ endX : Int, endX.natAbs ≤ CONFIG.SWIPE_THRESHOLD →
      s.handleTouchEnd endX = .ok { s with touchEndX := endX }) ∧
    (∀ endX : Int, ((CONFIG.SWIPE_THRESHOLD : Nat) : Int) < endX →
      ∃ s1, s.handleTouchEnd endX = .ok s1 ∧
        s1.currentSlide = .num (((c + s.slides.length - 1) % s.slides.length : Nat) : Int) ∧
        s1.autoPlayInterval = some s.nextTimerId) ∧
    (∀ endX : Int, endX < -((CONFIG.SWIPE_THRESHOLD : Nat) : Int) →
      ∃ s1, s.handleTouchEnd endX = .ok s1 ∧
        s1.currentSlide = .num (((c + 1) % s.slides.length : Nat) : Int) ∧
        s1.autoPlayInterval = some s.nextTimerId) ∧
    (∀ endX : Int, ∃ s1, s.handleTouchEnd endX = .ok s1) := by
  have hb : 0 < s.totalSlides := by omega
  have habs : ∀ endX : Int, (s.touchStartX - endX).natAbs = endX.natAbs := by
    intro endX
    rw [hstart]
    simp
  refine ⟨?_, ?_, ?_, ?_⟩
  · intro endX hle
    have hcond : ¬ CONFIG.SWIPE_THRESHOLD < (s.touchStartX - endX).natAbs := by
      rw [habs endX]
      exact not_lt.mpr hle
    rw [RibbonSlider.handleTouchEnd, RibbonSlider.handleSwipe_small _ hcond]
  · intro endX hend
    have hgt : CONFIG.SWIPE_THRESHOLD < (s.touchStartX - endX).natAbs := by
      rw [habs endX]
      have h1 : (endX.natAbs : Int) = endX := Int.natAbs_of_nonneg (by omega)
      have h2 : ((CONFIG.SWIPE_THRESHOLD : Nat) : Int) < (endX.natAbs : Int) := by
        rw [h1]; exact hend
      exact_mod_cast h2
    have hneg : ¬ 0 < s.touchStartX - endX := by rw [hstart]; omega
    have hs2 := RibbonSlider.handleSwipe_neg { s with touchEndX := endX } hgt hneg
    have hprev := RibbonSlider.prevSlide_eq
      ({ s with touchEndX := endX } : RibbonSlider) c hc hb
    obtain ⟨u, hu, u1, u2, _, _, _, _, _⟩ :=
      RibbonSlider.restartAutoPlay_ok
        ({ s with touchEndX := endX } : RibbonSlider).prevSlide pb hpb
    refine ⟨u, ?_, ?_, u2⟩
    · rw [RibbonSlider.handleTouchEnd, hs2, hu]
    · have hcur : ({ s with touchEndX := endX } : RibbonSlider).prevSlide.currentSlide =
          .num (((c + s.totalSlides - 1) % s.totalSlides : Nat) : Int) := by
        rw [hprev]; rfl
      rw [u1, hcur, hWF]
  · intro endX hend
    have hgt : CONFIG.SWIPE_THRESHOLD < (s.touchStartX - endX).natAbs := by
      rw [habs endX]
      have h1 : (endX.natAbs : Int) = -endX := by
        rw [← Int.natAbs_neg]
        exact Int.natAbs_of_nonneg (by omega)
      have h2 : ((CONFIG.SWIPE_THRESHOLD : Nat) : Int) < (endX.natAbs : Int) := by
        rw [h1]; omega
      exact_mod_cast h2
    have hpos : 0 < s.touchStartX - endX := by rw [hstart]; omega
    have hs2 := RibbonSlider.handleSwipe_pos { s with touchEndX := endX } hgt hpos
    have hnext := RibbonSlider.nextSlide_eq
      ({ s with touchEndX := endX } : RibbonSlider) c hc hb
    obtain ⟨u, hu, u1, u2, _, _, _, _, _⟩ :=
      RibbonSlider.restartAutoPlay_ok
        ({ s with touchEndX := endX } : RibbonSlider).nextSlide pb hpb
    refine ⟨u, ?_, ?_, u2⟩
    · rw [RibbonSlider.handleTouchEnd, hs2, hu]
    · have hcur : ({ s with touchEndX := endX } : RibbonSlider).nextSlide.currentSlide =
          .num (((c + 1) % s.totalSlides : Nat) : Int) := by
        rw [hnext]; rfl
      rw [u1, hcur, hWF]
  · intro endX
    by_cases hgt : CONFIG.SWIPE_THRESHOLD < (s.touchStartX - endX).natAbs
    · by_cases hpos : 0 < s.touchStartX - endX
      · have hs2 := RibbonSlider.handleSwipe_pos { s with touchEndX := endX } hgt hpos
        obtain ⟨u, hu, _, _, _, _, _, _, _⟩ :=
          RibbonSlider.restartAutoPlay_ok
            ({ s with touchEndX := endX } : RibbonSlider).nextSlide pb hpb
        exact ⟨u, by rw [RibbonSlider.handleTouchEnd, hs2, hu]⟩
      · have hs2 := RibbonSlider.handleSwipe_neg { s with touchEndX := endX } hgt hpos
        obtain ⟨u, hu, _, _, _, _, _, _, _⟩ :=
          RibbonSlider.restartAutoPlay_ok
            ({ s with touchEndX := endX } : RibbonSlider).prevSlide pb hpb
        exact ⟨u, by rw [RibbonSlider.handleTouchEnd, hs2, hu]⟩
    · exact ⟨_, by rw [RibbonSlider.handleTouchEnd, RibbonSlider.handleSwipe_small _ hgt]⟩

/-- Witness for the amended C4: on the fresh three-slide slider, a lone
touch-end at `clientX = 100` retreats to slide 2 with a restarted timer. -/
theorem touchEnd_default_start_behavior_witness :
    ∃ s1, sample3.handleTouchEnd 100 = .ok s1 ∧
      s1.currentSlide =
        .num (((0 + sample3.slides.length - 1) % sample3.slides.length : Nat) : Int) ∧
      s1.autoPlayInterval = some sample3.nextTimerId :=
  (touchEnd_default_start_behavior sample3 0 "idle" rfl rfl rfl rfl (by decide)).2.1
    100 (by decide)

/-- Claim C10: when no `.progress-fill` element exists (`progressBar` is
null), every user input that changes a slide — dot click, either arrow
key, above-threshold swipe — throws, and it does so only after the timer
has already been restarted: the error state carries the fresh schedule. -/
theorem null_progressBar_restart_throws (s : RibbonSlider) (i : Nat)
    (startX endX : Int)
    (hpb : s.progressBar = none)
    (hswipe : CONFIG.SWIPE_THRESHOLD < (startX - endX).natAbs) :
    (∃ e, s.dotClick i = .error e ∧ e.currentSlide = .num i ∧
        e.autoPlayInterval = some s.nextTimerId ∧ s.nextTimerId ∈ e.pendingIntervals) ∧
    (∃ e, s.handleKeydown "ArrowRight" = .error e ∧
        e.autoPlayInterval = some s.nextTimerId ∧ s.nextTimerId ∈ e.pendingIntervals) ∧
    (∃ e, s.handleKeydown "ArrowLeft" = .error e ∧
        e.autoPlayInterval = some s.nextTimerId ∧ s.nextTimerId ∈ e.pendingIntervals) ∧
    (∃ e, (RibbonSlider.handleTouchStart s startX).handleTouchEnd endX = .error e ∧
        e.autoPlayInterval = some s.nextTimerId ∧ s.nextTimerId ∈ e.pendingIntervals) := by
  refine ⟨?_, ?_, ?_, ?_⟩
  · obtain ⟨e, he, e1, e2, e3, _⟩ :=
      RibbonSlider.restartAutoPlay_error (s.goToSlide (.num i)) hpb
    exact ⟨e, he, e1, e2, e3⟩
  · have hkr : s.handleKeydown "ArrowRight" = s.nextSlide.restartAutoPlay := by
      rw [RibbonSlider.handleKeydown, if_neg (by decide), if_pos rfl]
    obtain ⟨e, he, _, e2, e3, _⟩ :=
      RibbonSlider.restartAutoPlay_error s.nextSlide hpb
    exact ⟨e, by rw [hkr, he], e2, e3⟩
  · have hkl : s.handleKeydown "ArrowLeft" = s.prevSlide.restartAutoPlay := by
      rw [RibbonSlider.handleKeydown, if_pos rfl]
    obtain ⟨e, he, _, e2, e3, _⟩ :=
      RibbonSlider.restartAutoPlay_error s.prevSlide hpb
    exact ⟨e, by rw [hkl, he], e2, e3⟩
  · have hcomp : (RibbonSlider.handleTouchStart s startX).handleTouchEnd endX =
        RibbonSlider.handleSwipe
          { s with touchStartX := startX, touchEndX := endX } := rfl
    by_cases hpos : 0 < startX - endX
    · have hs2 := RibbonSlider.handleSwipe_pos
        { s with touchStartX := startX, touchEndX := endX } hswipe hpos
      obtain ⟨e, he, _, e2, e3, _⟩ :=
        RibbonSlider.restartAutoPlay_error
          ({ s with touchStartX := startX, touchEndX := endX } : RibbonSlider).nextSlide hpb
      exact ⟨e, by rw [hcomp, hs2, he], e2, e3⟩
    · have hs2 := RibbonSlider.handleSwipe_neg
        { s with touchStartX := startX, touchEndX := endX } hswipe hpos
      obtain ⟨e, he, _, e2, e3, _⟩ :=
        RibbonSlider.restartAutoPlay_error
          ({ s with touchStartX := startX, touchEndX := endX } : RibbonSlider).prevSlide hpb
      exact ⟨e, by rw [hcomp, hs2, he], e2, e3⟩

/-- Witness for C10 on the concrete slider without a progress-fill
element: dot click on 1, both arrow keys, and a 100-unit swipe all throw
with the restarted schedule in the error state. -/
theorem null_progressBar_restart_throws_witness :
    (∃ e, sampleNoBar.dotClick 1 = .error e ∧ e.currentSlide = .num 1 ∧
        e.autoPlayInterval = some sampleNoBar.nextTimerId ∧
        sampleNoBar.nextTimerId ∈ e.pendingIntervals) ∧
    (∃ e, sampleNoBar.handleKeydown "ArrowRight" = .error e ∧
        e.autoPlayInterval = some sampleNoBar.nextTimerId ∧
        sampleNoBar.nextTimerId ∈ e.pendingIntervals) ∧
    (∃ e, sampleNoBar.handleKeydown "ArrowLeft" = .error e ∧
        e.autoPlayInterval = some sampleNoBar.nextTimerId ∧
        sampleNoBar.nextTimerId ∈ e.pendingIntervals) ∧
    (∃ e, (RibbonSlider.handleTouchStart sampleNoBar 300).handleTouchEnd 200 = .error e ∧
        e.autoPlayInterval = some sampleNoBar.nextTimerId ∧
        sampleNoBar.nextTimerId ∈ e.pendingIntervals) :=
  null_progressBar_restart_throws sampleNoBar 1 300 200 rfl (by decide)
